import Mathlib

/-
  Verification of the dynamic gRPC invocation client of arwoosa/vulpes
  (package ezgrpc/client, plus the generic facade in package ezgrpc).

  Shallow embedding notes:
  * Go maps (client.conns, client.services, serviceInfo.Methods) are
    modelled as association lists with Go-map insert semantics
    (mapInsert replaces an existing binding).
  * Go errors built with fmt.Errorf are modelled as a GoError carrying
    the list of sentinel errors reachable through the chain of wrapped
    errors (what errors.Is can observe) together with the message as the
    ordered list of format fragments; the single quotes Go prints around
    interpolated names are omitted from the fragments.
  * A Go byte slice that may be nil ([]byte) is modelled as
    Option (List Nat): none is the nil slice, some bs a non-nil slice.
  * Network effects (grpc.NewClient, the reflection stream, proto and
    protojson calls, conn.Invoke) are modelled as oracle arguments whose
    outcomes the embedded control flow branches on, and the embedding
    additionally records which effects were performed (fetch performed,
    JSON population attempted, RPC issued).
  * protoregistry.Files.RangeFiles iterates a Go map, so its order is
    undefined; parseServiceDescriptor therefore takes the iteration
    order as an explicit argument, admissible when it is a permutation
    of the file indices.
-/

deriving instance DecidableEq for Except

namespace Vulpes

/-! ## Go map model (association lists with replace-on-insert) -/

def mapLookup {α : Type} (m : List (String × α)) (k : String) : Option α :=
  match m with
  | [] => none
  | (k2, v) :: rest => if k2 = k then some v else mapLookup rest k

def mapInsert {α : Type} (m : List (String × α)) (k : String) (v : α) : List (String × α) :=
  match m with
  | [] => [(k, v)]
  | (k2, v2) :: rest => if k2 = k then (k, v) :: rest else (k2, v2) :: mapInsert rest k v

/-! ## Errors (ezgrpc/client/error.go and fmt.Errorf wrapping) -/

/-- The sentinel errors declared in error.go. -/
inductive Sentinel
  | serviceNotFound
  | methodNotFound
  | invalidRequest
  | connectionFailed
  | fetchServerInfoFailed
  deriving DecidableEq, Repr

/-- The message text of each sentinel (errors.New argument). -/
def sentinelText : Sentinel → String
  | .serviceNotFound => "service not found"
  | .methodNotFound => "method not found"
  | .invalidRequest => "invalid request"
  | .connectionFailed => "connection failed"
  | .fetchServerInfoFailed => "failed to fetch server info"

/-- A Go error value: the sentinels reachable through the chain of
errors wrapped with the %w verb (the observations available to
errors.Is), and the rendered message as its ordered fragments. -/
structure GoError where
  sentinels : List Sentinel
  msg : List String
  deriving DecidableEq, Repr

/-- errors.Is restricted to the sentinel errors of error.go. -/
def errorsIs (e : GoError) (s : Sentinel) : Bool :=
  e.sentinels.contains s

/-- fmt.Errorf with a leading %w sentinel followed by text and a
trailing %w wrapped error. -/
def wrapErr (s : Sentinel) (mid : List String) (e : GoError) : GoError :=
  ⟨s :: e.sentinels, sentinelText s :: mid ++ e.msg⟩

def isErr {α : Type} : Except GoError α → Bool
  | .error _ => true
  | .ok _ => false

def errSentinels {α : Type} : Except GoError α → List Sentinel
  | .error e => e.sentinels
  | .ok _ => []

/-! ## Descriptor data model (the fragment of descriptorpb/protodesc
the client touches) -/

/-- One method declaration of a service, as read off the linked
descriptor (MethodDescriptor). Input and output message types are
abstracted to descriptor identifiers. -/
structure MethodDecl where
  name : String
  inputType : Nat
  outputType : Nat
  isStreamingClient : Bool
  isStreamingServer : Bool
  deriving DecidableEq, Repr

/-- One service declaration inside a file descriptor. -/
structure ServiceDecl where
  fullName : String
  methods : List MethodDecl
  deriving DecidableEq, Repr

/-- A deserialized FileDescriptorProto, restricted to the parts the
client reads: the file path and its service declarations in
declaration order. -/
structure FileDescProto where
  path : String
  services : List ServiceDecl
  deriving DecidableEq, Repr

/-- methodInfo of client.go. -/
structure MethodInfo where
  name : String
  inputType : Nat
  outputType : Nat
  isStream : Bool
  deriving DecidableEq, Repr

/-- serviceInfo of client.go. The conn field holds the channel the
schema was resolved over, modelled as a channel identifier. -/
structure ServiceInfo where
  conn : Nat
  name : String
  methods : List (String × MethodInfo)
  deriving DecidableEq, Repr

/-! ## protodesc.NewFiles (the link step, modelled at its contract) -/

/-- Boolean no-duplicates check. -/
def nodupB : List String → Bool
  | [] => true
  | x :: xs => !(xs.contains x) && nodupB xs

/-- All fully-qualified service names declared across the files, file
by file, as the flattening of the per-file name lists. -/
def serviceNameLists (fdps : List FileDescProto) : List (List String) :=
  fdps.map (fun fd => fd.services.map (fun s => s.fullName))

def allServiceNames (fdps : List FileDescProto) : List String :=
  (serviceNameLists fdps).flatten

/-- protodesc.NewFiles over a FileDescriptorSet, modelled at the
contract level of protoregistry conflict checking restricted to the
fragment embedded here: registration fails when two files share a path
or two services (across all files) share a fully-qualified name;
otherwise the registry holds exactly the given files. -/
def protodesc_NewFiles (fdps : List FileDescProto) : Except GoError (List FileDescProto) :=
  if nodupB (fdps.map (fun fd => fd.path)) && nodupB (allServiceNames fdps) then
    .ok fdps
  else
    .error ⟨[], ["failed to create file descriptor from response"]⟩

/-! ## parseServiceDescriptor (client.go) -/

/-- The scan of one file for a service with the given fully-qualified
name, in declaration order (the inner loop of the RangeFiles
callback). -/
def findServiceInFile (fd : FileDescProto) (serviceName : String) : Option ServiceDecl :=
  fd.services.find? (fun s => s.fullName == serviceName)

/-- The RangeFiles scan: visit the registered files in the iteration
order the registry happens to produce (a permutation of the file
indices; Go map iteration order is undefined), and stop at the first
file containing a match. -/
def findServiceInOrder (files : List FileDescProto) (serviceName : String) :
    List Nat → Option ServiceDecl
  | [] => none
  | i :: rest =>
    match files[i]? with
    | none => findServiceInOrder files serviceName rest
    | some fd =>
      match findServiceInFile fd serviceName with
      | some s => some s
      | none => findServiceInOrder files serviceName rest

/-- The sequence of file indices the RangeFiles scan visits (it stops
right after the file in which the service is found). -/
def scanTrace (files : List FileDescProto) (serviceName : String) :
    List Nat → List Nat
  | [] => []
  | i :: rest =>
    match files[i]? with
    | none => i :: scanTrace files serviceName rest
    | some fd =>
      if (findServiceInFile fd serviceName).isSome then [i]
      else i :: scanTrace files serviceName rest

/-- The methods map construction of parseServiceDescriptor: a Go map
populated in declaration order. -/
def buildMethods (svc : ServiceDecl) : List (String × MethodInfo) :=
  svc.methods.foldl
    (fun acc m =>
      mapInsert acc m.name
        ⟨m.name, m.inputType, m.outputType, m.isStreamingClient || m.isStreamingServer⟩)
    []

/-- parseServiceDescriptor of client.go: link the file descriptors
with protodesc.NewFiles, scan the files (in the registry's iteration
order) for the service, and build the serviceInfo. The conn field is
zero here; GetServiceInvoker overwrites it after a successful fetch. -/
def parseServiceDescriptor (order : List Nat) (fdps : List FileDescProto)
    (serviceName : String) : Except GoError ServiceInfo :=
  match protodesc_NewFiles fdps with
  | .error e => .error e
  | .ok files =>
    match findServiceInOrder files serviceName order with
    | none => .error ⟨[], ["service ", serviceName, " not found in the provided file descriptors"]⟩
    | some svc => .ok ⟨0, svc.fullName, buildMethods svc⟩

/-! ## fetchServiceInfoFromServer (client.go) -/

/-- One raw byte blob of the FileDescriptorResponse: either
proto.Unmarshal rejects it, or it deserializes to a
FileDescriptorProto. -/
inductive DescBlob
  | malformed (errMsg : String)
  | wellFormed (fdp : FileDescProto)
  deriving DecidableEq, Repr

/-- The outcome of the reflection round-trip, as the code branches on
it: stream creation, Send and Recv can fail at the transport level;
the response can be an ErrorResponse (e.g. symbol not found), an
unexpected payload, or a FileDescriptorResponse carrying raw blobs. -/
inductive ReflectionOutcome
  | streamError (errMsg : String)
  | sendError (errMsg : String)
  | recvError (errMsg : String)
  | errorResponse (errMsg : String) (code : Int)
  | unexpectedResponse
  | fileDescriptors (blobs : List DescBlob)
  deriving DecidableEq, Repr

/-- The unmarshal loop over the raw blobs: fails at the first blob
proto.Unmarshal rejects, otherwise collects the file descriptors in
order. -/
def unmarshalBlobs : List DescBlob → Except GoError (List FileDescProto)
  | [] => .ok []
  | .malformed m :: _ => .error ⟨[], ["failed to unmarshal file descriptor proto: ", m]⟩
  | .wellFormed fdp :: rest =>
    match unmarshalBlobs rest with
    | .error e => .error e
    | .ok fdps => .ok (fdp :: fdps)

/-- fetchServiceInfoFromServer of client.go, with the reflection
round-trip outcome as an oracle and the registry iteration order as an
explicit argument. -/
def fetchServiceInfoFromServer (order : List Nat) (ro : ReflectionOutcome)
    (serviceName : String) : Except GoError ServiceInfo :=
  match ro with
  | .streamError m => .error ⟨[], ["failed to create reflection stream: ", m]⟩
  | .sendError m => .error ⟨[], ["failed to send file request: ", m]⟩
  | .recvError m => .error ⟨[], ["failed to receive response: ", m]⟩
  | .errorResponse m code =>
    .error ⟨[], ["server reflection error: ", m, " (code: ", toString code, ")"]⟩
  | .unexpectedResponse =>
    .error ⟨[], ["unexpected response type, not FileDescriptorResponse or ErrorResponse"]⟩
  | .fileDescriptors blobs =>
    match unmarshalBlobs blobs with
    | .error e => .error e
    | .ok fdps => parseServiceDescriptor order fdps serviceName

/-! ## serviceInvoker.Invoke (client.go) -/

/-- Which effects an invocation performed: whether protojson.Unmarshal
was called on the request payload, and whether conn.Invoke issued an
RPC over the channel. -/
structure InvokeTrace where
  parseAttempted : Bool
  rpcIssued : Bool
  deriving DecidableEq, Repr

def methodNotFoundErr (method service : String) : GoError :=
  wrapErr .methodNotFound [": method ", method, " not found in service ", service] ⟨[], []⟩

def streamingNotSupportedErr (method : String) : GoError :=
  ⟨[], ["streaming RPCs are not supported (method: ", method, ")"]⟩

def invalidRequestErr (unmarshalMsg : String) : GoError :=
  wrapErr .invalidRequest [": failed to unmarshal JSON into request: ", unmarshalMsg] ⟨[], []⟩

/-- serviceInvoker.Invoke. The protojson.Unmarshal outcome on the
given bytes and the combined outcome of conn.Invoke plus
protojson.Marshal of the reply are oracles; a conn.Invoke failure is
returned to the caller unchanged. -/
def serviceInvoker_Invoke
    (unmarshal : List Nat → Except String Unit)
    (rpc : Except GoError (List Nat))
    (info : ServiceInfo) (method : String) (jsonbody : Option (List Nat)) :
    Except GoError (List Nat) × InvokeTrace :=
  match mapLookup info.methods method with
  | none => (.error (methodNotFoundErr method info.name), ⟨false, false⟩)
  | some mi =>
    if mi.isStream then
      (.error (streamingNotSupportedErr method), ⟨false, false⟩)
    else
      match jsonbody with
      | none =>
        -- jsonbody == nil: the population step is skipped entirely
        (match rpc with
         | .error e => (.error e, ⟨false, true⟩)
         | .ok resp => (.ok resp, ⟨false, true⟩))
      | some bs =>
        match unmarshal bs with
        | .error m => (.error (invalidRequestErr m), ⟨true, false⟩)
        | .ok _ =>
          match rpc with
          | .error e => (.error e, ⟨true, true⟩)
          | .ok resp => (.ok resp, ⟨true, true⟩)

/-! ## The client state machine (client.go: conns, services, locks) -/

/-- The mutable state of a client value: the connection pool keyed by
address (channels are identifiers handed out in creation order from
nextConn), and the service cache keyed by address ++ "/" ++
serviceName. Under the client mutex the methods below execute
atomically, so the sequential functions model any interleaving of
calls; the read-lock lookup and the post-write-lock double check
collapse to a single lookup. -/
structure ClientState where
  conns : List (String × Nat)
  services : List (String × ServiceInfo)
  nextConn : Nat
  deriving DecidableEq, Repr

def connectionFailedErr (address : String) : GoError :=
  wrapErr .connectionFailed [": failed to connect to ", address] ⟨[], []⟩

/-- getOrCreateConn: reuse the pooled channel for the address, or
create one (the newConnOk oracle is the grpc.NewClient outcome) and
store it in the pool. -/
def getOrCreateConn (newConnOk : Bool) (st : ClientState) (address : String) :
    Except GoError Nat × ClientState :=
  match mapLookup st.conns address with
  | some conn => (.ok conn, st)
  | none =>
    if newConnOk then
      (.ok st.nextConn,
       { st with conns := mapInsert st.conns address st.nextConn, nextConn := st.nextConn + 1 })
    else
      (.error (connectionFailedErr address), st)

/-- The outcome and the state after one GetServiceInvoker call,
together with whether the reflection fetch ran. -/
structure GsiResult where
  result : Except GoError ServiceInfo
  state : ClientState
  fetched : Bool
  deriving Repr

/-- GetServiceInvoker of client.go with the fetch outcome as an
oracle: cache lookup under the key address ++ "/" ++ serviceName, then
connection get-or-create, then the reflection fetch; a successful
fetch is stored in the cache with the conn field set to the channel it
was fetched over. -/
def GetServiceInvoker (newConnOk : Bool) (fetch : Except GoError ServiceInfo)
    (st : ClientState) (address serviceName : String) : GsiResult :=
  match mapLookup st.services (address ++ "/" ++ serviceName) with
  | some info => ⟨.ok info, st, false⟩
  | none =>
    match getOrCreateConn newConnOk st address with
    | (.error e, st1) => ⟨.error e, st1, false⟩
    | (.ok conn, st1) =>
      match fetch with
      | .error e => ⟨.error (wrapErr .fetchServerInfoFailed [": "] e), st1, true⟩
      | .ok fetchedInfo =>
        ⟨.ok { fetchedInfo with conn := conn },
         { st1 with
            services := mapInsert st1.services (address ++ "/" ++ serviceName)
              { fetchedInfo with conn := conn } },
         true⟩

/-- The outcome of one client.Invoke call. -/
structure ClientInvokeResult where
  result : Except GoError (List Nat)
  state : ClientState
  trace : InvokeTrace
  fetched : Bool
  deriving Repr

/-- client.Invoke: GetServiceInvoker, wrapping any of its failures
with ErrServiceNotFound, then serviceInvoker.Invoke. -/
def client_Invoke (newConnOk : Bool) (fetch : Except GoError ServiceInfo)
    (unmarshal : List Nat → Except String Unit) (rpc : Except GoError (List Nat))
    (st : ClientState) (address serviceName method : String)
    (jsonbody : Option (List Nat)) : ClientInvokeResult :=
  let g := GetServiceInvoker newConnOk fetch st address serviceName
  match g.result with
  | .error e =>
    ⟨.error (wrapErr .serviceNotFound
        [":failed to get gRPC service info for service ", serviceName, " at ", address, ": "] e),
     g.state, ⟨false, false⟩, g.fetched⟩
  | .ok invoker =>
    let r := serviceInvoker_Invoke unmarshal rpc invoker method jsonbody
    ⟨r.1, g.state, r.2, g.fetched⟩

/-- A sequence of GetServiceInvoker calls for one fixed (address,
serviceName), each with its own fetch-outcome oracle; returns the
final state and the per-call (result, fetch ran) observations. -/
def runGSI (newConnOk : Bool) (address serviceName : String) :
    ClientState → List (Except GoError ServiceInfo) →
    ClientState × List (Except GoError ServiceInfo × Bool)
  | st, [] => (st, [])
  | st, fetch :: rest =>
    let g := GetServiceInvoker newConnOk fetch st address serviceName
    let t := runGSI newConnOk address serviceName g.state rest
    (t.1, (g.result, g.fetched) :: t.2)

/-! ## The generic facade (package ezgrpc, Invoke and isNil) -/

/-- A Go value as the reflect-based isNil check observes it: its kind
and, for the nilable kinds, whether it is nil. Maps and slices carry
Option-wrapped sizes (none is the nil map/slice). reflect.ValueOf
unwraps interfaces, so a nil interface is only seen by the any(v) ==
nil test. -/
inductive GoValue
  | nilInterface
  | chanV (nilV : Bool)
  | funcV (nilV : Bool)
  | mapV (entries : Option Nat)
  | ptrV (nilV : Bool)
  | sliceV (elems : Option Nat)
  | stringV (s : String)
  | structV (fields : Nat)
  | intV (n : Int)
  | boolV (b : Bool)
  deriving DecidableEq, Repr

/-- isNil of the ezgrpc facade: any(v) == nil, else reflect nil-ness
for chan, func, map, pointer and slice kinds; every other kind is not
nil. -/
def isNil : GoValue → Bool
  | .nilInterface => true
  | .chanV b => b
  | .funcV b => b
  | .mapV none => true
  | .mapV (some _) => false
  | .ptrV b => b
  | .sliceV none => true
  | .sliceV (some _) => false
  | _ => false

/-- The error the facade returns for a rejected request
(fmt.Errorf with the literal text, no sentinel wrapped). -/
def requestIsNilErr : GoError := ⟨[], ["request is nil"]⟩

/-- Which steps the facade performed: whether json.Marshal ran on the
request and whether the call was delegated to the dynamic client
(connection pool, service cache, dynamic invoker). -/
structure FacadeTrace where
  marshaled : Bool
  delegated : Bool
  deriving DecidableEq, Repr

/-- Invoke of the ezgrpc facade: reject per isNil, json.Marshal the
request, delegate to the package-level client, json.Unmarshal the
response. Marshal, delegation and response decoding are oracles; the
decoded response value is abstracted to the decoded bytes. -/
def ezgrpc_Invoke
    (marshal : GoValue → Except GoError (List Nat))
    (clientInvoke : List Nat → Except GoError (List Nat))
    (unmarshalResp : List Nat → Except GoError (List Nat))
    (req : GoValue) : Except GoError (List Nat) × FacadeTrace :=
  if isNil req then
    (.error requestIsNilErr, ⟨false, false⟩)
  else
    match marshal req with
    | .error e => (.error e, ⟨true, false⟩)
    | .ok jsonbody =>
      match clientInvoke jsonbody with
      | .error e => (.error e, ⟨true, true⟩)
      | .ok respByte =>
        match unmarshalResp respByte with
        | .error e => (.error e, ⟨true, true⟩)
        | .ok r => (.ok r, ⟨true, true⟩)

/-! ## Predicates taken from the claims' wording (for stating the
claims as written, to be compared with the behaviour of the embedded
code) -/

/-- From the wording of claim C6: a request payload is empty when it
has length zero — which is true of both the nil slice and the empty
non-nil slice in Go. -/
def isEmptyBody : Option (List Nat) → Bool
  | none => true
  | some bs => bs.isEmpty

/-- From the wording of claim C7: a request value that is nil or
empty (nil-ish values, plus the empty map, slice, string and
struct). -/
def isNilOrEmpty (v : GoValue) : Bool :=
  isNil v ||
    (match v with
     | .mapV (some n) => n == 0
     | .sliceV (some n) => n == 0
     | .stringV s => s.isEmpty
     | .structV n => n == 0
     | _ => false)

/-- From the wording of claim C8: the deterministic file-order scan
(file order, then declaration order within a file, stopping at the
first match). -/
def fileOrderScan (files : List FileDescProto) (serviceName : String) : Option ServiceDecl :=
  findServiceInOrder files serviceName (List.range files.length)

/-! ## Helper lemmas -/

theorem mapLookup_mapInsert_self {α : Type} (m : List (String × α)) (k : String) (v : α) :
    mapLookup (mapInsert m k v) k = some v := by
  induction m with
  | nil => simp [mapInsert, mapLookup]
  | cons kv rest ih =>
    by_cases h : kv.1 = k
    · simp [mapInsert, mapLookup, h]
    · simp [mapInsert, mapLookup, h, ih]

theorem getOrCreateConn_services (newConnOk : Bool) (st : ClientState) (address : String) :
    (getOrCreateConn newConnOk st address).2.services = st.services := by
  unfold getOrCreateConn
  cases h : mapLookup st.conns address with
  | some conn => simp
  | none => cases newConnOk <;> simp

theorem getOrCreateConn_ok_of_true (st : ClientState) (address : String) :
    isErr (getOrCreateConn true st address).1 = false := by
  unfold getOrCreateConn
  cases h : mapLookup st.conns address with
  | some conn => simp [isErr]
  | none => simp [isErr]

/-! ## Concrete fixtures used by witnesses and counterexamples -/

/-- A resolved Greeter-like service with one unary and one streaming
method, as an integration test server would yield it. -/
def greeterInfo : ServiceInfo :=
  ⟨0, "helloworld.Greeter",
   [("SayHello", ⟨"SayHello", 1, 2, false⟩),
    ("StreamHello", ⟨"StreamHello", 1, 2, true⟩)]⟩

/-- A protojson.Unmarshal stand-in for concrete runs: empty input is
not a JSON value, so protojson rejects it. -/
def protojsonUnmarshalEx : List Nat → Except String Unit :=
  fun bs => if bs.isEmpty then .error "unexpected EOF" else .ok ()

/-- A fresh client (NewClient): empty pool, empty cache. -/
def st0 : ClientState := ⟨[], [], 0⟩

/-! ## Claim C3 -/

/-- Claim C3 (confirmed): invoking a method whose streaming flag is
set fails with the unsupported-operation error and the trace shows no
RPC was issued over the channel (and no request parsing happened
either). -/
theorem C3_streaming_rejected_no_rpc
    (unmarshal : List Nat → Except String Unit) (rpc : Except GoError (List Nat))
    (info : ServiceInfo) (method : String) (jsonbody : Option (List Nat))
    (mi : MethodInfo) (hfind : mapLookup info.methods method = some mi)
    (hstream : mi.isStream = true) :
    serviceInvoker_Invoke unmarshal rpc info method jsonbody =
      (.error (streamingNotSupportedErr method), ⟨false, false⟩) := by
  unfold serviceInvoker_Invoke
  rw [hfind]
  simp [hstream]

theorem C3_streaming_rejected_no_rpc_witness :
    serviceInvoker_Invoke protojsonUnmarshalEx (.ok []) greeterInfo "StreamHello" none =
      (.error (streamingNotSupportedErr "StreamHello"), ⟨false, false⟩) :=
  C3_streaming_rejected_no_rpc protojsonUnmarshalEx (.ok []) greeterInfo "StreamHello" none
    ⟨"StreamHello", 1, 2, true⟩ (by decide) rfl

/-! ## Claim C4 -/

/-- Claim C4 (confirmed): invoking a method name absent from the
resolved schema returns the method-not-found error, whose message
fragments contain both the service name and the method name, and the
trace shows no RPC was issued. -/
theorem C4_method_not_found_local
    (unmarshal : List Nat → Except String Unit) (rpc : Except GoError (List Nat))
    (info : ServiceInfo) (method : String) (jsonbody : Option (List Nat))
    (hfind : mapLookup info.methods method = none) :
    serviceInvoker_Invoke unmarshal rpc info method jsonbody =
      (.error (methodNotFoundErr method info.name), ⟨false, false⟩)
    ∧ method ∈ (methodNotFoundErr method info.name).msg
    ∧ info.name ∈ (methodNotFoundErr method info.name).msg
    ∧ errorsIs (methodNotFoundErr method info.name) .methodNotFound = true := by
  refine ⟨?_, ?_, ?_, ?_⟩
  · unfold serviceInvoker_Invoke
    rw [hfind]
  · simp [methodNotFoundErr, wrapErr]
  · simp [methodNotFoundErr, wrapErr]
  · simp [methodNotFoundErr, wrapErr, errorsIs]

theorem C4_method_not_found_local_witness :
    serviceInvoker_Invoke protojsonUnmarshalEx (.ok []) greeterInfo "NoSuchMethod" none =
      (.error (methodNotFoundErr "NoSuchMethod" "helloworld.Greeter"), ⟨false, false⟩)
    ∧ "NoSuchMethod" ∈ (methodNotFoundErr "NoSuchMethod" "helloworld.Greeter").msg
    ∧ "helloworld.Greeter" ∈ (methodNotFoundErr "NoSuchMethod" "helloworld.Greeter").msg
    ∧ errorsIs (methodNotFoundErr "NoSuchMethod" "helloworld.Greeter") .methodNotFound = true :=
  C4_method_not_found_local protojsonUnmarshalEx (.ok []) greeterInfo "NoSuchMethod" none
    (by decide)

/-! ## Claim C5 -/

/-- Claim C5 (confirmed): a request payload that protojson rejects
makes Invoke return the invalid-request error (carrying the
ErrInvalidRequest sentinel) with no RPC issued; an RPC failure, by
contrast, is propagated to the caller unchanged, so it does not carry
the ErrInvalidRequest sentinel whenever the transport error does not —
the two kinds are distinguishable. -/
theorem C5_invalid_json_distinct_no_rpc
    (unmarshal : List Nat → Except String Unit) (rpc : Except GoError (List Nat))
    (info : ServiceInfo) (method : String) (bs : List Nat)
    (mi : MethodInfo) (hfind : mapLookup info.methods method = some mi)
    (hstream : mi.isStream = false) (pmsg : String)
    (hunm : unmarshal bs = .error pmsg) :
    serviceInvoker_Invoke unmarshal rpc info method (some bs) =
      (.error (invalidRequestErr pmsg), ⟨true, false⟩)
    ∧ errorsIs (invalidRequestErr pmsg) .invalidRequest = true
    ∧ (∀ (unm2 : List Nat → Except String Unit) (e : GoError),
         unm2 bs = .ok () →
         serviceInvoker_Invoke unm2 (.error e) info method (some bs) = (.error e, ⟨true, true⟩)) := by
  refine ⟨?_, ?_, ?_⟩
  · unfold serviceInvoker_Invoke
    rw [hfind]
    simp [hstream, hunm]
  · simp [invalidRequestErr, wrapErr, errorsIs]
  · intro unm2 e h2
    unfold serviceInvoker_Invoke
    rw [hfind]
    simp [hstream, h2]

theorem C5_invalid_json_distinct_no_rpc_witness :
    serviceInvoker_Invoke protojsonUnmarshalEx (.ok []) greeterInfo "SayHello" (some []) =
      (.error (invalidRequestErr "unexpected EOF"), ⟨true, false⟩)
    ∧ errorsIs (invalidRequestErr "unexpected EOF") .invalidRequest = true
    ∧ (∀ (unm2 : List Nat → Except String Unit) (e : GoError),
         unm2 [] = .ok () →
         serviceInvoker_Invoke unm2 (.error e) greeterInfo "SayHello" (some []) =
           (.error e, ⟨true, true⟩)) :=
  C5_invalid_json_distinct_no_rpc protojsonUnmarshalEx (.ok []) greeterInfo "SayHello" []
    ⟨"SayHello", 1, 2, false⟩ (by decide) rfl "unexpected EOF" rfl

/-! ## Claim C6 -/

/-- Claim C6 (false as stated): the claim says the JSON-population
step is skipped for every empty requestJSON. The code skips it only
for a nil payload: an empty but non-nil payload (length zero, so empty
in the claim's sense) is handed to protojson.Unmarshal — the trace
shows the parse was attempted — and, empty input not being valid JSON,
the call returns the invalid-request error instead of proceeding with
a default-valued message. -/
theorem C6_counterexample_empty_nonnil_parsed :
    isEmptyBody (some []) = true
    ∧ (serviceInvoker_Invoke protojsonUnmarshalEx (.ok []) greeterInfo "SayHello"
        (some [])).2.parseAttempted = true
    ∧ (serviceInvoker_Invoke protojsonUnmarshalEx (.ok []) greeterInfo "SayHello"
        (some [])).1 = .error (invalidRequestErr "unexpected EOF") := by
  decide

/-- Claim C6 (amended): the JSON-population step is skipped exactly
when requestJSON is nil — the parse is attempted iff the payload is
non-nil, and with a nil payload the RPC proceeds with the
default-valued input message and the RPC outcome is returned
unchanged. -/
theorem C6_amended_skip_iff_nil
    (unmarshal : List Nat → Except String Unit) (rpc : Except GoError (List Nat))
    (info : ServiceInfo) (method : String) (jsonbody : Option (List Nat))
    (mi : MethodInfo) (hfind : mapLookup info.methods method = some mi)
    (hstream : mi.isStream = false) :
    (serviceInvoker_Invoke unmarshal rpc info method jsonbody).2.parseAttempted = jsonbody.isSome
    ∧ (jsonbody = none →
        serviceInvoker_Invoke unmarshal rpc info method jsonbody = (rpc, ⟨false, true⟩)) := by
  constructor
  · unfold serviceInvoker_Invoke
    rw [hfind]
    cases jsonbody with
    | none => cases rpc <;> simp [hstream]
    | some bs =>
      cases h : unmarshal bs with
      | error m => simp [hstream, h]
      | ok u => cases rpc <;> simp [hstream, h]
  · intro hnil
    subst hnil
    unfold serviceInvoker_Invoke
    rw [hfind]
    cases rpc <;> simp [hstream]

theorem C6_amended_skip_iff_nil_witness :
    (serviceInvoker_Invoke protojsonUnmarshalEx (.ok [7]) greeterInfo "SayHello"
        none).2.parseAttempted = Option.isSome (α := List Nat) none
    ∧ (none = (none : Option (List Nat)) →
        serviceInvoker_Invoke protojsonUnmarshalEx (.ok [7]) greeterInfo "SayHello" none =
          (.ok [7], ⟨false, true⟩)) :=
  C6_amended_skip_iff_nil protojsonUnmarshalEx (.ok [7]) greeterInfo "SayHello" none
    ⟨"SayHello", 1, 2, false⟩ (by decide) rfl

/-! ## Claim C7 -/

/-- Claim C7 (false as stated): the claim says every nil or empty
request is rejected before serialization and delegation. The facade
rejects only reflective nil-ness: an empty but non-nil request (here
an empty non-nil slice) passes the isNil check, is serialized, and is
delegated to the dynamic client — the facade trace shows both steps
ran and the call succeeded. -/
theorem C7_counterexample_empty_not_rejected :
    isNilOrEmpty (GoValue.sliceV (some 0)) = true
    ∧ (ezgrpc_Invoke (fun _ => .ok [1]) (fun _ => .ok [2]) (fun _ => .ok [3])
        (GoValue.sliceV (some 0))).2 = ⟨true, true⟩
    ∧ (ezgrpc_Invoke (fun _ => .ok [1]) (fun _ => .ok [2]) (fun _ => .ok [3])
        (GoValue.sliceV (some 0))).1 = .ok [3] := by
  decide

/-- Claim C7 (amended): every nil request value — nil interface, or a
nil chan, func, map, pointer or slice — is rejected up front with the
request-is-nil error, before json.Marshal runs and before anything is
delegated to the connection pool, service cache or dynamic invoker;
empty but non-nil values are not rejected. -/
theorem C7_amended_nil_rejected
    (marshal : GoValue → Except GoError (List Nat))
    (clientInvoke : List Nat → Except GoError (List Nat))
    (unmarshalResp : List Nat → Except GoError (List Nat))
    (req : GoValue) (h : isNil req = true) :
    ezgrpc_Invoke marshal clientInvoke unmarshalResp req =
      (.error requestIsNilErr, ⟨false, false⟩) := by
  unfold ezgrpc_Invoke
  simp [h]

theorem C7_amended_nil_rejected_witness :
    ezgrpc_Invoke (fun _ => .ok [1]) (fun _ => .ok [2]) (fun _ => .ok [3])
        (GoValue.ptrV true) =
      (.error requestIsNilErr, ⟨false, false⟩) :=
  C7_amended_nil_rejected (fun _ => .ok [1]) (fun _ => .ok [2]) (fun _ => .ok [3])
    (GoValue.ptrV true) rfl

/-! ## Claim C9 -/

theorem unmarshalBlobs_isErr_of_malformed (m : String) :
    ∀ blobs : List DescBlob, DescBlob.malformed m ∈ blobs →
      isErr (unmarshalBlobs blobs) = true := by
  intro blobs
  induction blobs with
  | nil => intro h; cases h
  | cons b rest ih =>
    intro h
    cases b with
    | malformed m2 => simp [unmarshalBlobs, isErr]
    | wellFormed fdp =>
      have hrest : DescBlob.malformed m ∈ rest := by
        cases h with
        | tail _ h2 => exact h2
      have := ih hrest
      unfold unmarshalBlobs
      cases h2 : unmarshalBlobs rest with
      | error e => simp [isErr]
      | ok fdps => rw [h2] at this; simp [isErr] at this

theorem unmarshalBlobs_map_wellFormed (fdps : List FileDescProto) :
    unmarshalBlobs (fdps.map DescBlob.wellFormed) = .ok fdps := by
  induction fdps with
  | nil => rfl
  | cons fd rest ih => simp [unmarshalBlobs, ih]

/-- Claim C9 (confirmed): a resolve in which a raw blob fails to
deserialize is an error, a resolve in which the descriptors fail to
link is an error, and a failed resolve during GetServiceInvoker (on a
cache miss for the key) leaves the whole service cache untouched and
returns an error — nothing is stored for the key. -/
theorem C9_parse_failure_fatal_cache_unchanged
    (order : List Nat) (serviceName : String) (blobs : List DescBlob) (m : String)
    (fdps : List FileDescProto) (newConnOk : Bool) (st : ClientState)
    (address : String) (e : GoError)
    (hmiss : mapLookup st.services (address ++ "/" ++ serviceName) = none) :
    (DescBlob.malformed m ∈ blobs →
       isErr (fetchServiceInfoFromServer order (.fileDescriptors blobs) serviceName) = true)
    ∧ (isErr (protodesc_NewFiles fdps) = true →
       isErr (fetchServiceInfoFromServer order
         (.fileDescriptors (fdps.map DescBlob.wellFormed)) serviceName) = true)
    ∧ (GetServiceInvoker newConnOk (.error e) st address serviceName).state.services
        = st.services
    ∧ isErr (GetServiceInvoker newConnOk (.error e) st address serviceName).result = true := by
  refine ⟨?_, ?_, ?_, ?_⟩
  · intro hmem
    have := unmarshalBlobs_isErr_of_malformed m blobs hmem
    cases h2 : unmarshalBlobs blobs with
    | error e2 => simp [fetchServiceInfoFromServer, h2, isErr]
    | ok fdps2 => rw [h2] at this; simp [isErr] at this
  · intro hlink
    cases h3 : protodesc_NewFiles fdps with
    | error e2 =>
      simp [fetchServiceInfoFromServer, unmarshalBlobs_map_wellFormed,
        parseServiceDescriptor, h3, isErr]
    | ok files => rw [h3] at hlink; simp [isErr] at hlink
  · have hsv := getOrCreateConn_services newConnOk st address
    unfold GetServiceInvoker
    rw [hmiss]
    rcases hg : getOrCreateConn newConnOk st address with ⟨r1, st1⟩
    rw [hg] at hsv
    cases r1 with
    | error e2 => simpa using hsv
    | ok conn => simpa using hsv
  · unfold GetServiceInvoker
    rw [hmiss]
    rcases hg : getOrCreateConn newConnOk st address with ⟨r1, st1⟩
    cases r1 with
    | error e2 => simp [isErr]
    | ok conn => simp [isErr]

theorem C9_parse_failure_fatal_cache_unchanged_witness :
    (DescBlob.malformed "bad bytes" ∈ [DescBlob.malformed "bad bytes"] →
       isErr (fetchServiceInfoFromServer [] (.fileDescriptors [DescBlob.malformed "bad bytes"])
         "helloworld.Greeter") = true)
    ∧ (isErr (protodesc_NewFiles [⟨"a.proto", []⟩, ⟨"a.proto", []⟩]) = true →
       isErr (fetchServiceInfoFromServer []
         (.fileDescriptors ([⟨"a.proto", []⟩, ⟨"a.proto", []⟩].map DescBlob.wellFormed))
         "helloworld.Greeter") = true)
    ∧ (GetServiceInvoker true (.error ⟨[], ["boom"]⟩) st0 "localhost:7080"
        "helloworld.Greeter").state.services = st0.services
    ∧ isErr (GetServiceInvoker true (.error ⟨[], ["boom"]⟩) st0 "localhost:7080"
        "helloworld.Greeter").result = true :=
  C9_parse_failure_fatal_cache_unchanged [] "helloworld.Greeter"
    [DescBlob.malformed "bad bytes"] "bad bytes" [⟨"a.proto", []⟩, ⟨"a.proto", []⟩]
    true st0 "localhost:7080" ⟨[], ["boom"]⟩ rfl

/-! ## Claim C10 -/

/-- Claim C10 (confirmed): when the connection for an address is newly
created and the subsequent schema fetch fails, GetServiceInvoker
returns an error while the pool keeps the new channel under the
address, and a later call for the same address reuses that very
channel (the resolved invoker is bound to it and no further channel is
created). -/
theorem C10_connection_kept_after_fetch_failure
    (st : ClientState) (address serviceName : String) (e : GoError) (info : ServiceInfo)
    (hconn : mapLookup st.conns address = none)
    (hsvc : mapLookup st.services (address ++ "/" ++ serviceName) = none) :
    isErr (GetServiceInvoker true (.error e) st address serviceName).result = true
    ∧ mapLookup (GetServiceInvoker true (.error e) st address serviceName).state.conns address
        = some st.nextConn
    ∧ (GetServiceInvoker true (.ok info)
         (GetServiceInvoker true (.error e) st address serviceName).state
         address serviceName).result = .ok { info with conn := st.nextConn }
    ∧ (GetServiceInvoker true (.ok info)
         (GetServiceInvoker true (.error e) st address serviceName).state
         address serviceName).state.conns
        = (GetServiceInvoker true (.error e) st address serviceName).state.conns
    ∧ (GetServiceInvoker true (.ok info)
         (GetServiceInvoker true (.error e) st address serviceName).state
         address serviceName).state.nextConn
        = (GetServiceInvoker true (.error e) st address serviceName).state.nextConn := by
  refine ⟨?_, ?_, ?_, ?_, ?_⟩ <;>
    simp [GetServiceInvoker, getOrCreateConn, hsvc, hconn, mapLookup_mapInsert_self, isErr]

theorem C10_connection_kept_after_fetch_failure_witness :
    isErr (GetServiceInvoker true (.error ⟨[], ["boom"]⟩) st0 "localhost:7080"
        "helloworld.Greeter").result = true
    ∧ mapLookup (GetServiceInvoker true (.error ⟨[], ["boom"]⟩) st0 "localhost:7080"
        "helloworld.Greeter").state.conns "localhost:7080" = some st0.nextConn
    ∧ (GetServiceInvoker true (.ok greeterInfo)
         (GetServiceInvoker true (.error ⟨[], ["boom"]⟩) st0 "localhost:7080"
           "helloworld.Greeter").state
         "localhost:7080" "helloworld.Greeter").result
        = .ok { greeterInfo with conn := st0.nextConn }
    ∧ (GetServiceInvoker true (.ok greeterInfo)
         (GetServiceInvoker true (.error ⟨[], ["boom"]⟩) st0 "localhost:7080"
           "helloworld.Greeter").state
         "localhost:7080" "helloworld.Greeter").state.conns
        = (GetServiceInvoker true (.error ⟨[], ["boom"]⟩) st0 "localhost:7080"
            "helloworld.Greeter").state.conns
    ∧ (GetServiceInvoker true (.ok greeterInfo)
         (GetServiceInvoker true (.error ⟨[], ["boom"]⟩) st0 "localhost:7080"
           "helloworld.Greeter").state
         "localhost:7080" "helloworld.Greeter").state.nextConn
        = (GetServiceInvoker true (.error ⟨[], ["boom"]⟩) st0 "localhost:7080"
            "helloworld.Greeter").state.nextConn :=
  C10_connection_kept_after_fetch_failure st0 "localhost:7080" "helloworld.Greeter"
    ⟨[], ["boom"]⟩ greeterInfo rfl rfl

/-! ## Claim C1 -/

def errMsgFrags {α : Type} : Except GoError α → List String
  | .error e => e.msg
  | .ok _ => []

/-- Claim C1 (false as stated): resolving a service the peer reports
as an unknown symbol and failing the reflection round-trip at the
transport level produce errors whose sentinel chains are identical —
both are ErrServiceNotFound wrapping ErrFetchServerInfoFailed, because
client.Invoke wraps every GetServiceInvoker failure in
ErrServiceNotFound and GetServiceInvoker wraps every fetch failure in
ErrFetchServerInfoFailed. errors.Is cannot tell the two conditions
apart, so they are not distinguishable in kind by the caller. -/
theorem C1_counterexample_same_kind :
    errSentinels (client_Invoke true
        (fetchServiceInfoFromServer [] (.errorResponse "symbol not found" 5)
          "helloworld.Greeter")
        protojsonUnmarshalEx (.ok []) st0 "localhost:7080" "helloworld.Greeter"
        "SayHello" none).result
      = [.serviceNotFound, .fetchServerInfoFailed]
    ∧ errSentinels (client_Invoke true
        (fetchServiceInfoFromServer [] (.recvError "connection reset")
          "helloworld.Greeter")
        protojsonUnmarshalEx (.ok []) st0 "localhost:7080" "helloworld.Greeter"
        "SayHello" none).result
      = [.serviceNotFound, .fetchServerInfoFailed] := by
  decide

/-- Claim C1 (amended): a missing-symbol reflection response and a
transport-level reflection failure both surface from client.Invoke
wrapped in the same sentinels, ErrServiceNotFound wrapping
ErrFetchServerInfoFailed; the two conditions differ only in the
message text (the former carries the server reflection error text, the
latter the receive failure text), not in error kind. -/
theorem C1_amended_error_kinds
    (order : List Nat) (st : ClientState) (address serviceName method : String)
    (unmarshal : List Nat → Except String Unit) (rpc : Except GoError (List Nat))
    (jsonbody : Option (List Nat)) (m1 m2 : String) (code : Int)
    (hmiss : mapLookup st.services (address ++ "/" ++ serviceName) = none) :
    errSentinels (client_Invoke true
        (fetchServiceInfoFromServer order (.errorResponse m1 code) serviceName)
        unmarshal rpc st address serviceName method jsonbody).result
      = [.serviceNotFound, .fetchServerInfoFailed]
    ∧ errSentinels (client_Invoke true
        (fetchServiceInfoFromServer order (.recvError m2) serviceName)
        unmarshal rpc st address serviceName method jsonbody).result
      = [.serviceNotFound, .fetchServerInfoFailed]
    ∧ "server reflection error: " ∈ errMsgFrags (client_Invoke true
        (fetchServiceInfoFromServer order (.errorResponse m1 code) serviceName)
        unmarshal rpc st address serviceName method jsonbody).result
    ∧ "failed to receive response: " ∈ errMsgFrags (client_Invoke true
        (fetchServiceInfoFromServer order (.recvError m2) serviceName)
        unmarshal rpc st address serviceName method jsonbody).result := by
  refine ⟨?_, ?_, ?_, ?_⟩ <;>
    (cases hc : mapLookup st.conns address with
     | some conn =>
       simp [client_Invoke, GetServiceInvoker, getOrCreateConn, fetchServiceInfoFromServer,
         hmiss, hc, wrapErr, errSentinels, errMsgFrags]
     | none =>
       simp [client_Invoke, GetServiceInvoker, getOrCreateConn, fetchServiceInfoFromServer,
         hmiss, hc, wrapErr, errSentinels, errMsgFrags])

theorem C1_amended_error_kinds_witness :
    errSentinels (client_Invoke true
        (fetchServiceInfoFromServer [] (.errorResponse "symbol not found" 5)
          "helloworld.Greeter")
        protojsonUnmarshalEx (.ok []) st0 "localhost:7080" "helloworld.Greeter"
        "SayHello" none).result
      = [.serviceNotFound, .fetchServerInfoFailed]
    ∧ errSentinels (client_Invoke true
        (fetchServiceInfoFromServer [] (.recvError "connection reset")
          "helloworld.Greeter")
        protojsonUnmarshalEx (.ok []) st0 "localhost:7080" "helloworld.Greeter"
        "SayHello" none).result
      = [.serviceNotFound, .fetchServerInfoFailed]
    ∧ "server reflection error: " ∈ errMsgFrags (client_Invoke true
        (fetchServiceInfoFromServer [] (.errorResponse "symbol not found" 5)
          "helloworld.Greeter")
        protojsonUnmarshalEx (.ok []) st0 "localhost:7080" "helloworld.Greeter"
        "SayHello" none).result
    ∧ "failed to receive response: " ∈ errMsgFrags (client_Invoke true
        (fetchServiceInfoFromServer [] (.recvError "connection reset")
          "helloworld.Greeter")
        protojsonUnmarshalEx (.ok []) st0 "localhost:7080" "helloworld.Greeter"
        "SayHello" none).result :=
  C1_amended_error_kinds [] st0 "localhost:7080" "helloworld.Greeter" "SayHello"
    protojsonUnmarshalEx (.ok []) none "symbol not found" "connection reset" 5 rfl

/-! ## Claim C2 -/

/-- A call observation in which the reflection fetch ran and
succeeded. -/
def succFetch (r : Except GoError ServiceInfo × Bool) : Bool :=
  !(isErr r.1) && r.2

theorem gsi_hit (newConnOk : Bool) (f : Except GoError ServiceInfo)
    (st : ClientState) (address serviceName : String) (info : ServiceInfo)
    (h : mapLookup st.services (address ++ "/" ++ serviceName) = some info) :
    GetServiceInvoker newConnOk f st address serviceName = ⟨.ok info, st, false⟩ := by
  simp [GetServiceInvoker, h]

theorem gsi_ok_cached (newConnOk : Bool) (f : Except GoError ServiceInfo)
    (st : ClientState) (address serviceName : String) (inv : ServiceInfo)
    (h : (GetServiceInvoker newConnOk f st address serviceName).result = .ok inv) :
    mapLookup (GetServiceInvoker newConnOk f st address serviceName).state.services
      (address ++ "/" ++ serviceName) = some inv := by
  cases hl : mapLookup st.services (address ++ "/" ++ serviceName) with
  | some info =>
    rw [gsi_hit newConnOk f st address serviceName info hl] at h ⊢
    simp at h
    simp [hl, h]
  | none =>
    rcases hg : getOrCreateConn newConnOk st address with ⟨r1, st1⟩
    cases r1 with
    | error e2 => simp [GetServiceInvoker, hl, hg] at h
    | ok conn =>
      cases f with
      | error e2 => simp [GetServiceInvoker, hl, hg] at h
      | ok fi =>
        simp [GetServiceInvoker, hl, hg] at h ⊢
        rw [mapLookup_mapInsert_self]
        rw [h]

theorem runGSI_cached (newConnOk : Bool) (address serviceName : String)
    (info : ServiceInfo) :
    ∀ (fs : List (Except GoError ServiceInfo)) (st : ClientState),
      mapLookup st.services (address ++ "/" ++ serviceName) = some info →
      runGSI newConnOk address serviceName st fs =
        (st, fs.map (fun _ => (.ok info, false))) := by
  intro fs
  induction fs with
  | nil => intro st h; rfl
  | cons f rest ih =>
    intro st h
    simp [runGSI, gsi_hit newConnOk f st address serviceName info h, ih st h]

theorem runGSI_succ_count (newConnOk : Bool) (address serviceName : String) :
    ∀ (fs : List (Except GoError ServiceInfo)) (st : ClientState),
      ((runGSI newConnOk address serviceName st fs).2.countP succFetch) ≤ 1 := by
  intro fs
  induction fs with
  | nil => intro st; simp [runGSI]
  | cons f rest ih =>
    intro st
    cases hres : (GetServiceInvoker newConnOk f st address serviceName).result with
    | ok inv =>
      have hc := gsi_ok_cached newConnOk f st address serviceName inv hres
      have hr := runGSI_cached newConnOk address serviceName inv rest
        (GetServiceInvoker newConnOk f st address serviceName).state hc
      have hz : List.countP succFetch
          (rest.map (fun _ => ((Except.ok inv : Except GoError ServiceInfo), false))) = 0 := by
        simp [List.countP_eq_zero, succFetch]
      simp only [runGSI, hr, hres, List.countP_cons, hz]
      cases (GetServiceInvoker newConnOk f st address serviceName).fetched <;>
        simp [succFetch, isErr]
    | error e =>
      have := ih (GetServiceInvoker newConnOk f st address serviceName).state
      simp [runGSI, hres, List.countP_cons, succFetch, isErr]
      exact this

/-- Claim C2 (amended): on a cache hit GetServiceInvoker returns the
stored invoker with no fetch and no state change; under any sequence
of calls for a fixed (address, serviceName) the reflection fetch runs
successfully at most once (a failed fetch is not cached, so a later
call may fetch again); and once a call has returned an invoker, every
later call returns that identical cached invoker with no fetch and no
state change. -/
theorem C2_amended_memoization
    (newConnOk : Bool) (address serviceName : String) (st : ClientState)
    (fs : List (Except GoError ServiceInfo)) (f : Except GoError ServiceInfo)
    (info inv : ServiceInfo) :
    (mapLookup st.services (address ++ "/" ++ serviceName) = some info →
       GetServiceInvoker newConnOk f st address serviceName = ⟨.ok info, st, false⟩)
    ∧ ((runGSI newConnOk address serviceName st fs).2.countP succFetch) ≤ 1
    ∧ ((GetServiceInvoker newConnOk f st address serviceName).result = .ok inv →
       runGSI newConnOk address serviceName
           (GetServiceInvoker newConnOk f st address serviceName).state fs
         = ((GetServiceInvoker newConnOk f st address serviceName).state,
            fs.map (fun _ => (.ok inv, false)))) :=
  ⟨fun h => gsi_hit newConnOk f st address serviceName info h,
   runGSI_succ_count newConnOk address serviceName fs st,
   fun h => runGSI_cached newConnOk address serviceName inv fs
     (GetServiceInvoker newConnOk f st address serviceName).state
     (gsi_ok_cached newConnOk f st address serviceName inv h)⟩

/-- A client whose caches already hold the Greeter schema and its
channel. -/
def stC : ClientState :=
  ⟨[("localhost:7080", 0)], [("localhost:7080/helloworld.Greeter", greeterInfo)], 1⟩

theorem C2_amended_memoization_witness :
    GetServiceInvoker true (.ok greeterInfo) stC "localhost:7080" "helloworld.Greeter"
      = ⟨.ok greeterInfo, stC, false⟩
    ∧ ((runGSI true "localhost:7080" "helloworld.Greeter" stC
        [.ok greeterInfo]).2.countP succFetch) ≤ 1
    ∧ runGSI true "localhost:7080" "helloworld.Greeter"
          (GetServiceInvoker true (.ok greeterInfo) stC "localhost:7080"
            "helloworld.Greeter").state [.ok greeterInfo]
        = ((GetServiceInvoker true (.ok greeterInfo) stC "localhost:7080"
            "helloworld.Greeter").state,
           ([(Except.ok greeterInfo : Except GoError ServiceInfo)]).map
             (fun _ => (.ok greeterInfo, false))) :=
  have t := C2_amended_memoization true "localhost:7080" "helloworld.Greeter" stC
    [.ok greeterInfo] (.ok greeterInfo) greeterInfo greeterInfo
  ⟨t.1 (by decide), t.2.1, t.2.2 (by decide)⟩

/-- Claim C2 (false as stated): the claim says the reflection fetch
runs at most once per key under any sequence of calls. A failed
resolve is not cached, so two consecutive calls whose fetches fail
perform two reflection fetches for the same key. -/
theorem C2_counterexample_refetch_after_failure :
    ((runGSI true "localhost:7080" "helloworld.Greeter" st0
        [.error ⟨[], ["boom"]⟩, .error ⟨[], ["boom"]⟩]).2.countP (fun r => r.2)) = 2 := by
  decide

/-! ## Claim C8 -/

/-- The outcome of scanning the i-th registered file for the
service. -/
def fileMatch (files : List FileDescProto) (serviceName : String) (i : Nat) :
    Option ServiceDecl :=
  match files[i]? with
  | none => none
  | some fd => findServiceInFile fd serviceName

theorem findServiceInOrder_cons (files : List FileDescProto) (sn : String)
    (i : Nat) (rest : List Nat) :
    findServiceInOrder files sn (i :: rest) =
      match fileMatch files sn i with
      | some s => some s
      | none => findServiceInOrder files sn rest := by
  cases h : files[i]? with
  | none => simp [findServiceInOrder, fileMatch, h]
  | some fd => cases h2 : findServiceInFile fd sn <;>
      simp [findServiceInOrder, fileMatch, h, h2]

theorem findOrder_none (files : List FileDescProto) (sn : String) :
    ∀ o : List Nat, (∀ i ∈ o, fileMatch files sn i = none) →
      findServiceInOrder files sn o = none := by
  intro o
  induction o with
  | nil => intro _; rfl
  | cons i rest ih =>
    intro h
    rw [findServiceInOrder_cons, h i (by simp)]
    exact ih (fun j hj => h j (by simp [hj]))

theorem findOrder_all_none_of_none (files : List FileDescProto) (sn : String) :
    ∀ o : List Nat, findServiceInOrder files sn o = none →
      ∀ i ∈ o, fileMatch files sn i = none := by
  intro o
  induction o with
  | nil => intro _ i hi; cases hi
  | cons k rest ih =>
    intro h i hi
    rw [findServiceInOrder_cons] at h
    cases hk : fileMatch files sn k with
    | some s => rw [hk] at h; cases h
    | none =>
      rw [hk] at h
      cases hi with
      | head => exact hk
      | tail _ h2 => exact ih h i h2

theorem findOrder_mem_of_some (files : List FileDescProto) (sn : String) :
    ∀ (o : List Nat) (d : ServiceDecl), findServiceInOrder files sn o = some d →
      ∃ i ∈ o, fileMatch files sn i = some d := by
  intro o
  induction o with
  | nil => intro d h; cases h
  | cons k rest ih =>
    intro d h
    rw [findServiceInOrder_cons] at h
    cases hk : fileMatch files sn k with
    | some s =>
      rw [hk] at h
      simp at h
      exact ⟨k, by simp, by rw [hk, h]⟩
    | none =>
      rw [hk] at h
      obtain ⟨j, hj, hjm⟩ := ih d h
      exact ⟨j, by simp [hj], hjm⟩

theorem findOrder_some_of_mem (files : List FileDescProto) (sn : String)
    (d : ServiceDecl)
    (huniq : ∀ i j a b, fileMatch files sn i = some a →
       fileMatch files sn j = some b → i = j) :
    ∀ (o : List Nat) (i : Nat), i ∈ o → fileMatch files sn i = some d →
      findServiceInOrder files sn o = some d := by
  intro o
  induction o with
  | nil => intro i h; cases h
  | cons k rest ih =>
    intro i hmem hi
    rw [findServiceInOrder_cons]
    cases hk : fileMatch files sn k with
    | some b =>
      have hik : i = k := huniq i k d b hi hk
      subst hik
      rw [hi] at hk
      cases hk
      rfl
    | none =>
      have hik : i ≠ k := fun he => by subst he; rw [hi] at hk; cases hk
      have hmem2 : i ∈ rest := by
        cases hmem with
        | head => exact absurd rfl hik
        | tail _ h2 => exact h2
      exact ih i hmem2 hi

theorem nodupB_iff (l : List String) : nodupB l = true ↔ l.Nodup := by
  induction l with
  | nil => simp [nodupB]
  | cons x xs ih =>
    simp [nodupB, List.nodup_cons, ih, Bool.and_eq_true, Bool.not_eq_true', List.elem_iff]

theorem fileMatch_name (files : List FileDescProto) (sn : String) (i : Nat)
    (a : ServiceDecl) (h : fileMatch files sn i = some a) :
    ∃ fd, files[i]? = some fd ∧ a ∈ fd.services ∧ a.fullName = sn := by
  unfold fileMatch at h
  cases hfi : files[i]? with
  | none => rw [hfi] at h; cases h
  | some fd =>
    rw [hfi] at h
    unfold findServiceInFile at h
    refine ⟨fd, rfl, List.mem_of_find?_eq_some h, ?_⟩
    have := List.find?_some h
    simpa using this

theorem fileMatch_uniq (files : List FileDescProto) (sn : String)
    (hnd : (allServiceNames files).Nodup) :
    ∀ i j a b, fileMatch files sn i = some a → fileMatch files sn j = some b →
      i = j := by
  intro i j a b hi hj
  obtain ⟨fdi, hfi, hai, hni⟩ := fileMatch_name files sn i a hi
  obtain ⟨fdj, hfj, haj, hnj⟩ := fileMatch_name files sn j b hj
  have hpair : (serviceNameLists files).Pairwise List.Disjoint :=
    (List.nodup_flatten.mp hnd).2
  have hmi : (serviceNameLists files)[i]? = some (fdi.services.map (fun s => s.fullName)) := by
    unfold serviceNameLists
    rw [List.getElem?_map, hfi]
    rfl
  have hmj : (serviceNameLists files)[j]? = some (fdj.services.map (fun s => s.fullName)) := by
    unfold serviceNameLists
    rw [List.getElem?_map, hfj]
    rfl
  obtain ⟨hli, hgi⟩ := List.getElem?_eq_some_iff.mp hmi
  obtain ⟨hlj, hgj⟩ := List.getElem?_eq_some_iff.mp hmj
  have hsni : sn ∈ fdi.services.map (fun s => s.fullName) :=
    List.mem_map.mpr ⟨a, hai, hni⟩
  have hsnj : sn ∈ fdj.services.map (fun s => s.fullName) :=
    List.mem_map.mpr ⟨b, haj, hnj⟩
  by_contra hne
  rcases Nat.lt_or_ge i j with hij | hij
  · have hdis := List.pairwise_iff_getElem.mp hpair i j hli hlj hij
    rw [hgi, hgj] at hdis
    exact hdis hsni hsnj
  · have hij2 : j < i := Nat.lt_of_le_of_ne hij (fun he => hne he.symm)
    have hdis := List.pairwise_iff_getElem.mp hpair j i hlj hli hij2
    rw [hgi, hgj] at hdis
    exact hdis hsnj hsni

theorem parseServiceDescriptor_perm (o1 o2 : List Nat) (fdps : List FileDescProto)
    (sn : String) (hperm : o1.Perm o2) :
    parseServiceDescriptor o1 fdps sn = parseServiceDescriptor o2 fdps sn := by
  unfold parseServiceDescriptor
  cases hnf : protodesc_NewFiles fdps with
  | error e => rfl
  | ok files =>
    have hok : (nodupB (fdps.map (fun fd => fd.path)) &&
        nodupB (allServiceNames fdps)) = true ∧ files = fdps := by
      unfold protodesc_NewFiles at hnf
      split at hnf
      · rename_i hcond
        exact ⟨hcond, (Except.ok.injEq _ _ |>.mp hnf).symm⟩
      · cases hnf
    have hnd : (allServiceNames files).Nodup := by
      rw [hok.2]
      exact (nodupB_iff _).mp (Bool.and_eq_true _ _ |>.mp hok.1).2
    have huniq := fileMatch_uniq files sn hnd
    have key : findServiceInOrder files sn o1 = findServiceInOrder files sn o2 := by
      cases h1 : findServiceInOrder files sn o1 with
      | some d =>
        obtain ⟨i, hio, him⟩ := findOrder_mem_of_some files sn o1 d h1
        exact (findOrder_some_of_mem files sn d huniq o2 i (hperm.mem_iff.mp hio) him).symm
      | none =>
        have hall := findOrder_all_none_of_none files sn o1 h1
        exact (findOrder_none files sn o2
          (fun j hj => hall j (hperm.mem_iff.mpr hj))).symm
    simp [key]

/-- Two single-service files used to exercise the scan order. -/
def filesAB : List FileDescProto :=
  [⟨"a.proto", [⟨"pkg.A", []⟩]⟩, ⟨"b.proto", [⟨"pkg.B", []⟩]⟩]

/-- Claim C8 (false as stated): the claim says the search scans the
linked files in file order. The scan iterates the registry through
RangeFiles, whose iteration order over the underlying map is
undefined: the order shown here is an admissible iteration order (a
permutation of the file indices) under which the scan visits the
second file before the first, so the visit sequence is not the
file-order sequence. -/
theorem C8_counterexample_scan_order :
    ([1, 0] : List Nat).Perm (List.range filesAB.length)
    ∧ scanTrace filesAB "pkg.C" [1, 0] ≠
        scanTrace filesAB "pkg.C" (List.range filesAB.length) := by
  constructor
  · decide
  · decide

/-- Claim C8 (amended): the scan order over the linked files is
unspecified (Go map iteration), not file order; but because linking
rejects duplicate fully-qualified service names, at most one service
can match, so the scan — which stops at the first file containing a
match, in declaration order within a file — returns the same result
under any two admissible iteration orders: two runs over the same
descriptor set select the same service. -/
theorem C8_amended_selection_order_independent
    (fdps : List FileDescProto) (serviceName : String) (o1 o2 : List Nat)
    (h1 : o1.Perm (List.range fdps.length)) (h2 : o2.Perm (List.range fdps.length)) :
    parseServiceDescriptor o1 fdps serviceName = parseServiceDescriptor o2 fdps serviceName :=
  parseServiceDescriptor_perm o1 o2 fdps serviceName (h1.trans h2.symm)

theorem C8_amended_selection_order_independent_witness :
    parseServiceDescriptor [1, 0] filesAB "pkg.B" =
      parseServiceDescriptor [0, 1] filesAB "pkg.B" :=
  C8_amended_selection_order_independent filesAB "pkg.B" [1, 0] [0, 1]
    (by decide) (by decide)

end Vulpes
